import Mathlib

/-!
Verification of the query-normalization and tool-dispatch convention of the
PDIMCPServer repository against its natural-language specification.  The
Python helpers (`src/tools/utils.py`), selected tool implementations
(`sales_gaps`, `sales_trend`, `year_over_year`, `basket_analysis`), the
scoped database helpers (`src/db/session.py`, `src/db/connection.py`) and
the dispatch layers (`src/server.py`, `src/fastapi_server.py`) are shallowly
embedded as executable Lean definitions, and the spec-level claims are
settled against them.

Modelling conventions, used uniformly below:

* Python `datetime.date` values are represented by their proleptic-Gregorian
  ordinal (`date.toordinal()`), a natural number.  This representation is an
  order isomorphism: Python date comparison is `≤` on the ordinals and
  `+ timedelta(days=1)` is `+ 1`.
* Python floats are modelled as rationals (`ℚ`); the arithmetic the claims
  touch (`safe_divide`, the lift formula) is exact division.
* The wall clock (`datetime.now().isoformat()`) is passed in explicitly as a
  `now : String` argument.
* Raised exceptions are the `.error` channel of `Except String`; the string
  carries `str(exc)`.
-/

namespace PDI

/-! ## Calendar arithmetic (`datetime.date`, proleptic Gregorian) -/

/-- Gregorian leap-year test, as in Python `calendar.isleap`. -/
def isLeap (y : Nat) : Bool :=
  y % 4 == 0 && (y % 100 != 0 || y % 400 == 0)

/-- Number of days in month `m` of year `y` (months are 1. to 12.). -/
def daysInMonth (y m : Nat) : Nat :=
  if m = 2 then (if isLeap y then 29 else 28)
  else if m = 4 ∨ m = 6 ∨ m = 9 ∨ m = 11 then 30
  else 31

/-- A calendar date, the embedding of Python `datetime.date` (and of the
date component of `datetime.datetime`, which is all the repository uses). -/
structure Date where
  year : Nat
  month : Nat
  day : Nat
deriving DecidableEq, Repr

/-- Validity of a date, exactly the constructor checks of `datetime.date`:
`MINYEAR = 1 ≤ year ≤ 9999 = MAXYEAR`, `1 ≤ month ≤ 12`,
`1 ≤ day ≤ daysInMonth`. -/
def Date.Valid (dt : Date) : Prop :=
  1 ≤ dt.year ∧ dt.year ≤ 9999 ∧ 1 ≤ dt.month ∧ dt.month ≤ 12 ∧
    1 ≤ dt.day ∧ dt.day ≤ daysInMonth dt.year dt.month

instance (dt : Date) : Decidable dt.Valid := by
  unfold Date.Valid; infer_instance

/-- Strict comparison of dates; Python compares date/datetime values
lexicographically by (year, month, day). -/
def dateLtB (a b : Date) : Bool :=
  a.year < b.year ||
    (a.year == b.year &&
      (a.month < b.month || (a.month == b.month && a.day < b.day)))

/-- Python `a > b` on dates. -/
def dateGtB (a b : Date) : Bool := dateLtB b a

/-- Days contributed by the months strictly before month `m` of year `y`. -/
def daysBeforeMonth (y m : Nat) : Nat :=
  (match m with
   | 1 => 0 | 2 => 31 | 3 => 59 | 4 => 90 | 5 => 120 | 6 => 151
   | 7 => 181 | 8 => 212 | 9 => 243 | 10 => 273 | 11 => 304 | _ => 334)
  + (if 3 ≤ m ∧ isLeap y then 1 else 0)

/-- Number of leap years among years `1 .. y`. -/
def leapsUpTo (y : Nat) : Nat := y / 4 - y / 100 + y / 400

/-- Proleptic-Gregorian ordinal of a date, exactly Python
`date.toordinal()`: day 1 is 0001-01-01. -/
def toOrdinal (dt : Date) : Nat :=
  365 * (dt.year - 1) + leapsUpTo (dt.year - 1)
    + daysBeforeMonth dt.year dt.month + dt.day

/-- Inverse of `toOrdinal` (Python `date.fromordinal`), via the standard
civil-from-days computation on a March-based year.  Day 0 of the shifted
count `z` is 0000-03-01, so `z = n + 305`. -/
def fromOrdinal (n : Nat) : Date :=
  let z := n + 305
  let era := z / 146097
  let doe := z % 146097
  let yoe := (doe - doe / 1460 + doe / 36524 - doe / 146096) / 365
  let y := yoe + era * 400
  let doy := doe - (365 * yoe + yoe / 4 - yoe / 100)
  let mp := (5 * doy + 2) / 153
  let d := doy - (153 * mp + 2) / 5 + 1
  let m := if mp < 10 then mp + 3 else mp - 9
  ⟨if m ≤ 2 then y + 1 else y, m, d⟩

/-! ## Date strings -/

/-- Character for a decimal digit `0 ≤ n ≤ 9`. -/
def digitChar (n : Nat) : Char := Char.ofNat (48 + n)

/-- Decimal value of a digit character, `none` for non-digits. -/
def digitVal (c : Char) : Option Nat :=
  if 48 ≤ c.toNat ∧ c.toNat ≤ 57 then some (c.toNat - 48) else none

/-- Two-digit zero-padded rendering, as `strftime` `%m` / `%d`. -/
def pad2 (n : Nat) : List Char :=
  if n < 10 then ['0', digitChar n]
  else [digitChar (n / 10), digitChar (n % 10)]

/-- Four-digit zero-padded rendering of a year `≤ 9999`, as `strftime` `%Y`
and `date.isoformat()`.  (For years below 1000 the padding of C `strftime`
is platform-defined; the model fixes it to the zero-padded form, which is
what `isoformat` produces and what the format string documents.) -/
def pad4 (n : Nat) : List Char :=
  [digitChar (n / 1000), digitChar (n / 100 % 10),
   digitChar (n / 10 % 10), digitChar (n % 10)]

/-- Characters of the canonical `YYYY-MM-DD` rendering of a date. -/
def dateChars (dt : Date) : List Char :=
  pad4 dt.year ++ '-' :: (pad2 dt.month ++ '-' :: pad2 dt.day)

/-- Canonical `YYYY-MM-DD` string of a date (`strftime("%Y-%m-%d")`,
equivalently `date.isoformat()`). -/
def dateToStr (dt : Date) : String := String.mk (dateChars dt)

/-- ISO string of a day given by its ordinal (`date.isoformat()` applied to
an ordinal-represented date). -/
def isoOfOrdinal (n : Nat) : String := dateToStr (fromOrdinal n)

/-! ## `strptime` for the four formats tried by `format_date`

CPython's `_strptime` compiles each format into a regular expression:
`%Y` is exactly four digits, `%m` is `1[0-2]|0[1-9]|[1-9]`, `%d` is
`3[01]|[12]\d|0[1-9]|[1-9]`, and literal separators stand for themselves.
The regex must match a prefix and `strptime` then raises if input remains,
so each format amounts to: greedy field parses, literal separators, end of
input, then the `datetime` constructor's range checks. -/

/-- Parse `%Y`: exactly four digit characters. -/
def parseYear4 : List Char → Option (Nat × List Char)
  | a :: b :: c :: d :: rest =>
    match digitVal a, digitVal b, digitVal c, digitVal d with
    | some da, some db, some dc, some dd =>
        some (1000 * da + 100 * db + 10 * dc + dd, rest)
    | _, _, _, _ => none
  | _ => none

/-- Parse `%m`, the regex `1[0-2]|0[1-9]|[1-9]` (greedy, in this
alternation order). -/
def parseMonth2 : List Char → Option (Nat × List Char)
  | [] => none
  | [c1] =>
    match digitVal c1 with
    | some d1 => if 1 ≤ d1 then some (d1, []) else none
    | none => none
  | c1 :: c2 :: rest =>
    match digitVal c1, digitVal c2 with
    | some d1, some d2 =>
        if d1 = 1 ∧ d2 ≤ 2 then some (10 + d2, rest)
        else if d1 = 0 ∧ 1 ≤ d2 then some (d2, rest)
        else if 1 ≤ d1 then some (d1, c2 :: rest)
        else none
    | some d1, none => if 1 ≤ d1 then some (d1, c2 :: rest) else none
    | none, _ => none

/-- Parse `%d`, the regex `3[01]|[12]\d|0[1-9]|[1-9]` (greedy, in this
alternation order). -/
def parseDay2 : List Char → Option (Nat × List Char)
  | [] => none
  | [c1] =>
    match digitVal c1 with
    | some d1 => if 1 ≤ d1 then some (d1, []) else none
    | none => none
  | c1 :: c2 :: rest =>
    match digitVal c1, digitVal c2 with
    | some d1, some d2 =>
        if d1 = 3 ∧ d2 ≤ 1 then some (30 + d2, rest)
        else if d1 = 1 ∨ d1 = 2 then some (10 * d1 + d2, rest)
        else if d1 = 0 ∧ 1 ≤ d2 then some (d2, rest)
        else if 1 ≤ d1 then some (d1, c2 :: rest)
        else none
    | some d1, none => if 1 ≤ d1 then some (d1, c2 :: rest) else none
    | none, _ => none

/-- Consume one literal separator character. -/
def expectChar (c : Char) : List Char → Option (List Char)
  | x :: rest => if x = c then some rest else none
  | [] => none

/-- Range checks performed by the `datetime` constructor once the regex has
matched; failure is the `ValueError` that `format_date` catches. -/
def mkValidDate (y m d : Nat) : Option Date :=
  if (Date.mk y m d).Valid then some ⟨y, m, d⟩ else none

/-- One `strptime` attempt with format `%Y-%m-%d`. -/
def parseYMDdash (cs : List Char) : Option Date := do
  let (y, r1) ← parseYear4 cs
  let r2 ← expectChar '-' r1
  let (m, r3) ← parseMonth2 r2
  let r4 ← expectChar '-' r3
  let (d, r5) ← parseDay2 r4
  if r5 = [] then mkValidDate y m d else none

/-- One `strptime` attempt with format `%m/%d/%Y`. -/
def parseMDYslash (cs : List Char) : Option Date := do
  let (m, r1) ← parseMonth2 cs
  let r2 ← expectChar '/' r1
  let (d, r3) ← parseDay2 r2
  let r4 ← expectChar '/' r3
  let (y, r5) ← parseYear4 r4
  if r5 = [] then mkValidDate y m d else none

/-- One `strptime` attempt with format `%Y/%m/%d`. -/
def parseYMDslash (cs : List Char) : Option Date := do
  let (y, r1) ← parseYear4 cs
  let r2 ← expectChar '/' r1
  let (m, r3) ← parseMonth2 r2
  let r4 ← expectChar '/' r3
  let (d, r5) ← parseDay2 r4
  if r5 = [] then mkValidDate y m d else none

/-- One `strptime` attempt with format `%d-%m-%Y`. -/
def parseDMYdash (cs : List Char) : Option Date := do
  let (d, r1) ← parseDay2 cs
  let r2 ← expectChar '-' r1
  let (m, r3) ← parseMonth2 r2
  let r4 ← expectChar '-' r3
  let (y, r5) ← parseYear4 r4
  if r5 = [] then mkValidDate y m d else none

/-- The format loop of `format_date`: the four formats are tried in order
`["%Y-%m-%d", "%m/%d/%Y", "%Y/%m/%d", "%d-%m-%Y"]`, each `ValueError`
moving on to the next. -/
def strptimeAny (cs : List Char) : Option Date :=
  match parseYMDdash cs with
  | some dt => some dt
  | none =>
    match parseMDYslash cs with
    | some dt => some dt
    | none =>
      match parseYMDslash cs with
      | some dt => some dt
      | none => parseDMYdash cs

/-- Argument of `format_date` (`date_input : Any`): either a string or a
`date`/`datetime` value.  Python `date` objects are valid by construction,
so the constructor carries the validity fact. -/
inductive DateInput where
  | str (s : String)
  | pydate (dt : Date) (valid : dt.Valid)

/-- Embedding of `format_date` (src/tools/utils.py:13).  Strings go through
the format loop and are re-rendered with `strftime("%Y-%m-%d")`; date and
datetime values are rendered directly; everything else (not representable
here) raises. -/
def format_date : DateInput → Except String String
  | .str s =>
    match strptimeAny s.data with
    | some dt => .ok (dateToStr dt)
    | none => .error ("Invalid date format: " ++ s ++ ". Expected YYYY-MM-DD")
  | .pydate dt _ => .ok (dateToStr dt)

/-- Embedding of `validate_date_range` (src/tools/utils.py:103): normalize
both ends via `format_date` (re-raising with an `Invalid date range:`
message), re-parse the canonical strings, fail if `start > end`.  The
over-365-days branch only emits `logger.warning` and does not affect the
returned value; it is modelled separately as `validate_range_warns`. -/
def validate_date_range (start_date end_date : String) :
    Except String (String × String) :=
  match format_date (.str start_date) with
  | .error msg => .error ("Invalid date range: " ++ msg)
  | .ok s =>
    match format_date (.str end_date) with
    | .error msg => .error ("Invalid date range: " ++ msg)
    | .ok e =>
      match strptimeAny s.data, strptimeAny e.data with
      | some sDt, some eDt =>
        if dateGtB sDt eDt then
          .error "Start date must be before or equal to end date"
        else .ok (s, e)
      | _, _ => .error "time data does not match format"

/-- Condition of the `logger.warning` branch of `validate_date_range`:
`(end_dt - start_dt).days > 365`. -/
def validate_range_warns (start_date end_date : String) : Bool :=
  match format_date (.str start_date), format_date (.str end_date) with
  | .ok s, .ok e =>
    match strptimeAny s.data, strptimeAny e.data with
    | some sDt, some eDt =>
        365 < (toOrdinal eDt : Int) - (toOrdinal sDt : Int)
    | _, _ => false
  | _, _ => false

/-! ## Python values and the response envelope (`src/tools/utils.py`) -/

/-- Py models the Python values that flow through the response layer:
scalars, `date`/`datetime` values (by ordinal), lists, and
insertion-ordered dicts. -/
inductive Py where
  | pnone
  | pbool (b : Bool)
  | pint (n : Int)
  | pnum (q : ℚ)
  | pstr (s : String)
  | pdate (ordinal : Nat)
  | plist (xs : List Py)
  | pdict (kvs : List (String × Py))

/-- Python truthiness (`if value:`): `None`, `False`, zero, the empty
string, the empty list and the empty dict are falsy. -/
def pyTruthy : Py → Bool
  | .pnone => false
  | .pbool b => b
  | .pint n => n != 0
  | .pnum q => q != 0
  | .pstr s => s != ""
  | .pdate _ => true
  | .plist xs => !xs.isEmpty
  | .pdict kvs => !kvs.isEmpty

/-- Python `str()` for the scalar values that occur in result rows and
query parameters (lists and dicts never reach it in the embedded code). -/
def pyStrOf : Py → String
  | .pnone => "None"
  | .pbool b => if b then "True" else "False"
  | .pint n => toString n
  | .pnum q => toString q
  | .pstr s => s
  | .pdate n => isoOfOrdinal n
  | .plist _ => "[...]"
  | .pdict _ => "dict"

/-- Truthiness of the `error` argument of the envelope builders
(`if error:`): `None` and the empty string are falsy. -/
def truthyErr : Option String → Bool
  | none => false
  | some s => s != ""

/-- Truthiness of the `metadata` argument (`if metadata:`): `None` and the
empty dict are falsy. -/
def truthyMeta : Option Py → Bool
  | none => false
  | some p => pyTruthy p

/-- Parameters of a SQL statement: positional (`?`) or named (`:key`),
both styles coexisting across tools. -/
inductive PyParams where
  | positional (ps : List Py)
  | named (kvs : List (String × Py))

/-- Literal rendering of one bound parameter inside `build_debug_sql`:
strings and date/datetime values get quoted, `None` becomes `NULL`,
anything else is `str(param)`. -/
def paramLiteral : Py → String
  | .pstr s => "\x27" ++ s ++ "\x27"
  | .pdate n => "\x27" ++ isoOfOrdinal n ++ "\x27"
  | .pnone => "NULL"
  | p => pyStrOf p

/-- Replace the first occurrence of character `c` (Python
`s.replace("?", value, 1)`). -/
def replaceFirstChar (cs : List Char) (c : Char) (rep : List Char) :
    List Char :=
  match cs with
  | [] => []
  | x :: xs => if x = c then rep ++ xs else x :: replaceFirstChar xs c rep

/-- Embedding of `build_debug_sql` (src/tools/utils.py:31): named
parameters replace every `:key`, positional parameters replace successive
`?` placeholders one at a time. -/
def build_debug_sql (sql : String) (params : PyParams) : String :=
  match params with
  | .named kvs =>
      kvs.foldl
        (fun acc kv => acc.replace (":" ++ kv.1) (paramLiteral kv.2)) sql
  | .positional ps =>
      ps.foldl
        (fun acc p =>
          String.mk (replaceFirstChar acc.data '?' (paramLiteral p).data))
        sql

/-- The standardized result envelope
`(success, data, row_count, debug_sql, timestamp, metadata?, error?)`.
`metadata` and `error` are `none` when the corresponding dict key is
absent. -/
structure Envelope where
  data : Py
  debug_sql : String
  timestamp : String
  row_count : Nat
  metadata : Option Py
  error : Option String
  success : Bool

/-- Embedding of `create_tool_response` (src/tools/utils.py:76):
`row_count` is `len(data)` for a list and `1` otherwise; `metadata` and
`error` keys are added only when truthy; `success` is `False` exactly when
the `error` key is added. -/
def create_tool_response (data : Py) (sql : String) (params : PyParams)
    (metadata : Option Py) (error : Option String) (now : String) :
    Envelope :=
  { data := data
    debug_sql := build_debug_sql sql params
    timestamp := now
    row_count := match data with | .plist xs => xs.length | _ => 1
    metadata := if truthyMeta metadata then metadata else none
    error := if truthyErr error then error else none
    success := !truthyErr error }

/-- Embedding of `format_response` (src/tools/utils.py:125), the builder of
the older basket tools: `success` is taken from the caller unchanged and
the `error` key is added independently whenever `error` is truthy. -/
def format_response (success : Bool) (data : Py) (debug_sql : String)
    (metadata : Option Py) (error : Option String) (now : String) :
    Envelope :=
  { data := data
    debug_sql := debug_sql
    timestamp := now
    row_count := match data with | .plist xs => xs.length | _ => 1
    metadata := if truthyMeta metadata then metadata else none
    error := if truthyErr error then error else none
    success := success }

/-- Embedding of `safe_divide` (src/tools/utils.py:69); float division is
modelled exactly on `ℚ`. -/
def safe_divide (numerator denominator default : ℚ) : ℚ :=
  if denominator = 0 then default else numerator / denominator

/-- The spec's envelope invariant: either the `error` key is present and
`success` is false, or the `error` key is absent and `success` is true. -/
def envelopeInvariant (env : Envelope) : Prop :=
  (env.error ≠ none ∧ env.success = false) ∨
    (env.error = none ∧ env.success = true)

instance (env : Envelope) : Decidable (envelopeInvariant env) := by
  unfold envelopeInvariant; infer_instance

/-- Data values are sequences, in the sense of the envelope data model
(`data : sequence-of-mappings | mapping`), exactly when they are Python
lists — the codebase passes only lists and dicts as `data`. -/
def dataIsSequence : Py → Bool
  | .plist _ => true
  | _ => false

/-- Length of a sequence-shaped data value. -/
def seqLength : Py → Nat
  | .plist xs => xs.length
  | _ => 0

/-! ## Small argument helpers shared by the tool embeddings -/

/-- Truthiness of an optional integer argument (`if site_id:`). -/
def optIntTruthy : Option Int → Bool
  | none => false
  | some n => n != 0

/-- Truthiness of an optional string argument (`if category:`). -/
def optStrTruthy : Option String → Bool
  | none => false
  | some s => s != ""

/-- The `site_id and site_id > 0` guard of `sales_gaps_impl`. -/
def siteFilterGaps : Option Int → Bool
  | none => false
  | some n => n != 0 && 0 < n

/-- Python value of an optional integer (`None` or `int`). -/
def pyOfOptInt : Option Int → Py
  | none => .pnone
  | some n => .pint n

/-- Python value of an optional string (`None` or `str`). -/
def pyOfOptStr : Option String → Py
  | none => .pnone
  | some s => .pstr s

/-- Python `str.lower()` (the arguments in question are ASCII). -/
def pyLower (s : String) : String := s.map Char.toLower

/-! ## `sales_gaps` (src/tools/analytics/sales_gaps.py) -/

/-- The gap-enumeration loop of `sales_gaps_impl`
(`cur = start_dt; while cur <= end_dt: ...; cur += timedelta(days=1)`),
carried on day ordinals, on which Python date comparison is `≤` and the
one-day step is `+ 1`. -/
def gapLoop (sold : List Nat) (cur endD : Nat) : List Nat :=
  if cur ≤ endD then
    if cur ∈ sold then gapLoop sold (cur + 1) endD
    else cur :: gapLoop sold (cur + 1) endD
  else []
termination_by endD + 1 - cur
decreasing_by all_goals omega

/-- Embedding of `sales_gaps_impl` (src/tools/analytics/sales_gaps.py:17).
`db` stands for the outcome of `execute_query`: the distinct `SaleDay`
values (as day ordinals) or a raised exception.  Note that
`validate_date_range` runs before the `try` block, so its `ValueError`
propagates (`.error`) instead of being converted to an envelope. -/
def sales_gaps_impl (start_date end_date : String) (site_id : Option Int)
    (db : Except String (List Nat)) (now : String) :
    Except String Envelope :=
  match validate_date_range start_date end_date with
  | .error msg => .error msg
  | .ok (s, e) =>
    let sitePred := if siteFilterGaps site_id then " AND SiteID = :site_id" else ""
    let sql :=
      "SELECT DISTINCT CONVERT(date, SaleDate) AS SaleDay FROM dbo.V_LLM_SalesFact WHERE SaleDate >= :start_date AND SaleDate < DATEADD(day, 1, :end_date)"
        ++ sitePred
    let params := PyParams.named
      ([("start_date", Py.pstr s), ("end_date", Py.pstr e)] ++
        (if siteFilterGaps site_id then [("site_id", Py.pint (site_id.getD 0))]
         else []))
    match db with
    | .error exc =>
        .ok (create_tool_response (.plist []) sql params none (some exc) now)
    | .ok soldDays =>
      match strptimeAny s.data, strptimeAny e.data with
      | some sDt, some eDt =>
        let gaps := gapLoop soldDays (toOrdinal sDt) (toOrdinal eDt)
        let meta := Py.pdict
          [("date_range", .pstr (s ++ " → " ++ e)),
           ("site_id", pyOfOptInt site_id)]
        .ok (create_tool_response
          (.plist (gaps.map (fun n => .pstr (isoOfOrdinal n))))
          sql params (some meta) none now)
      | _, _ =>
        .ok (create_tool_response (.plist []) sql params none
          (some "time data does not match format") now)

/-! ## `sales_trend` (src/tools/sales/sales_trend.py) -/

/-- The `interval_mapping` lookup table of `sales_trend_impl`. -/
def interval_mapping (key : String) : Option String :=
  if key = "daily" then some "SaleDate"
  else if key = "weekly" then
    some "DATEPART(WEEK, SaleDate) as Week, DATEPART(YEAR, SaleDate) as Year"
  else if key = "monthly" then
    some "DATEPART(MONTH, SaleDate) as Month, DATEPART(YEAR, SaleDate) as Year"
  else if key = "hourly" then
    some "SaleDate, DATEPART(HOUR, TimeOfDay) as Hour"
  else none

/-- The `metric_mapping` lookup table of `sales_trend_impl`. -/
def metric_mapping (key : String) : Option (String × String) :=
  if key = "sales" then some ("SUM(GrossSales)", "TotalSales")
  else if key = "quantity" then some ("SUM(QtySold)", "TotalQuantity")
  else if key = "transactions" then
    some ("COUNT(DISTINCT TransactionID)", "TransactionCount")
  else none

/-- The `group_cols` computation:
`", ".join(part.split(" as ")[0] for part in interval_sql.split(", "))`. -/
def groupCols (interval_sql : String) : String :=
  String.intercalate ", "
    ((interval_sql.splitOn ", ").map (fun part => (part.splitOn " as ").headD ""))

/-- The row post-processing step: a present and truthy value under `key`
is replaced by its `str()`. -/
def stringifyKey (key : String) (kvs : List (String × Py)) :
    List (String × Py) :=
  kvs.map (fun kv =>
    if kv.1 = key ∧ pyTruthy kv.2 then (kv.1, Py.pstr (pyStrOf kv.2)) else kv)

/-- Stringify the `SaleDate` and `TimeOfDay` columns of every result row
(for serialization safety), as the loop in `sales_trend_impl` does. -/
def trendPostProcess (rows : List Py) : List Py :=
  rows.map (fun r =>
    match r with
    | .pdict kvs => .pdict (stringifyKey "TimeOfDay" (stringifyKey "SaleDate" kvs))
    | other => other)

/-- Embedding of `sales_trend_impl` (src/tools/sales/sales_trend.py:12).
`db` stands for the outcome of `execute_query`.  As in `sales_gaps_impl`,
`validate_date_range` runs before the `try` block and its failure
propagates, while the interval/metric allow-list checks return error
envelopes. -/
def sales_trend_impl (start_date end_date : String) (interval : String)
    (site_id : Option Int) (category : Option String) (metric : String)
    (db : Except String (List Py)) (now : String) :
    Except String Envelope :=
  match validate_date_range start_date end_date with
  | .error msg => .error msg
  | .ok (s, e) =>
    let intervalKey := pyLower interval
    match interval_mapping intervalKey with
    | none =>
        .ok (create_tool_response (.plist []) "" (.positional []) none
          (some ("Invalid interval: " ++ interval)) now)
    | some interval_sql =>
      let metricKey := pyLower metric
      match metric_mapping metricKey with
      | none =>
          .ok (create_tool_response (.plist []) "" (.positional []) none
            (some ("Invalid metric: " ++ metric)) now)
      | some (metric_sql, metric_alias) =>
        let sql0 := "SELECT " ++ interval_sql ++ ", " ++ metric_sql ++ " AS "
          ++ metric_alias ++ " FROM dbo.V_LLM_SalesFact WHERE SaleDate BETWEEN ? AND ?"
        let params0 := [Py.pstr s, Py.pstr e]
        let sql1 := if optIntTruthy site_id then sql0 ++ " AND SiteID = ?" else sql0
        let params1 := if optIntTruthy site_id then
            params0 ++ [Py.pint (site_id.getD 0)] else params0
        let sql2 := if optStrTruthy category then sql1 ++ " AND Category LIKE ?" else sql1
        let params2 := if optStrTruthy category then
            params1 ++ [Py.pstr ("%" ++ category.getD "" ++ "%")] else params1
        let gcols := groupCols interval_sql
        let sql := sql2 ++ " GROUP BY " ++ gcols ++ " ORDER BY " ++ gcols
        match db with
        | .error exc =>
            .ok (create_tool_response (.plist []) sql (.positional params2) none
              (some exc) now)
        | .ok results =>
          let processed := trendPostProcess results
          let metadata := Py.pdict
            [("date_range", .pstr (s ++ " to " ++ e)),
             ("interval", .pstr intervalKey),
             ("metric", .pstr metricKey),
             ("filters", .pdict
               [("site_id", pyOfOptInt site_id),
                ("category", pyOfOptStr category)])]
          .ok (create_tool_response (.plist processed) sql (.positional params2)
            (some metadata) none now)

/-! ## `year_over_year` (src/tools/analytics/year_over_year.py)

This module is not embedded: the file does not parse as Python.  Two
merged revisions leave the tokenizer in an unterminated multi-line
statement, and in particular the `timedelta(days=365)` previous-window
statements at lines 35-39 are lexically the contents of a string literal
opened at line 34 (`base_sql = """` of the other revision), so neither
revision of `year_over_year_impl` exists as executable code.  The only
fragment of the year-over-year behavior decided by code that exists is
the `safe_divide`-based change computation, stated below over
`safe_divide` from src/tools/utils.py. -/

/-! ## `basket_analysis` lift (src/tools/basket/basket_analysis.py) -/

/-- SQL `ROUND(x, 2)` on the exactly-modelled value. -/
def roundTo2 (q : ℚ) : ℚ := ((round (q * 100) : ℤ) : ℚ) / 100

/-- The lift expression of the basket-analysis query:
`ROUND(CAST(pair_count AS FLOAT) * total_transactions /
(item1_count * item2_count), 2)`. -/
def basket_lift (pair_count total_transactions item1_count item2_count : ℚ) :
    ℚ :=
  roundTo2 (pair_count * total_transactions / (item1_count * item2_count))

/-! ## Scoped session/connection helpers (src/db/session.py,
src/db/connection.py) -/

/-- Lifecycle operations a SQLAlchemy session can undergo. -/
inductive SessionEvent where
  | create
  | commit
  | rollback
  | close
deriving DecidableEq, Repr

/-- Embedding of the `get_db` context manager (src/db/session.py:9):
`db = SessionLocal()`, `yield db` (the body's outcome is `body`), and a
`finally` that closes.  The generator performs no other session operation;
an exception from the body propagates after the close. -/
def get_db_run {α : Type} (body : Except String α) :
    Except String α × List SessionEvent :=
  (body, [.create, .close])

/-- Observable events of a pyodbc connection inside `get_connection`;
connections are identified by numeric handles. -/
inductive ConnEvent where
  | popped (c : Nat)
  | closedDead (c : Nat)
  | created (c : Nat)
  | committed (c : Nat)
  | rolledBack (c : Nat)
  | pooled (c : Nat)
  | closed (c : Nat)
deriving DecidableEq, Repr

/-- Embedding of the `get_connection` context manager
(src/db/connection.py:39).  `pool` is `_connection_pool` (Python
`list.pop()` takes the last element, `append` adds at the end); `alive`
is the `SELECT 1` liveness probe; `fresh` is the handle `pyodbc.connect`
would return; `body` is the outcome of the `with` body.  Returns the
body's outcome (exceptions re-raised), the final pool, and the connection
events in order.  `MAX_POOL_SIZE = 5`. -/
def get_connection_run {α : Type} (pool : List Nat) (alive : Nat → Bool)
    (fresh : Nat) (body : Except String α) :
    Except String α × List Nat × List ConnEvent :=
  let acquired : Nat × List ConnEvent × List Nat :=
    match pool.getLast? with
    | some c =>
      if alive c then (c, [.popped c], pool.dropLast)
      else (fresh, [.popped c, .closedDead c, .created fresh], pool.dropLast)
    | none => (fresh, [.created fresh], [])
  let conn := acquired.1
  let pre := acquired.2.1
  let rest := acquired.2.2
  match body with
  | .ok a =>
    if rest.length < 5 then (.ok a, rest ++ [conn], pre ++ [.pooled conn])
    else (.ok a, rest, pre ++ [.closed conn])
  | .error e => (.error e, rest, pre ++ [.closed conn])

/-! ## Dispatch layer (src/server.py, src/fastapi_server.py) -/

/-- One text content block of a call-tool reply. -/
structure TextContent where
  type : String
  text : String
deriving DecidableEq, Repr

/-- A registered tool: a stable name, and the `_implementation` attribute
when one was bound (`hasattr` check).  The implementation takes the
keyword arguments and yields a result or a raised exception, together with
the number of database accesses it performed. -/
structure ToolReg where
  name : String
  impl : Option (List (String × Py) → Except String Py × Nat)

/-- Lookup in `tool_map = {tool.name: tool for tool in tools}`: a dict
comprehension lets later entries overwrite earlier ones. -/
def toolLookup (tools : List ToolReg) (name : String) : Option ToolReg :=
  tools.reverse.find? (fun t => t.name == name)

/-- Embedding of the `call_tool` handler of the MCP stdio server
(src/server.py:69): unknown names and missing implementations become text
error blocks, implementation exceptions are caught and become
`Error executing ...` text blocks, successes are serialized
(`json.dumps`, abstracted as `serialize`).  Also reports the number of
database accesses performed. -/
def server_call_tool (tools : List ToolReg) (serialize : Py → String)
    (name : String) (args : List (String × Py)) : List TextContent × Nat :=
  match toolLookup tools name with
  | none => ([⟨"text", "Unknown tool: " ++ name⟩], 0)
  | some tool =>
    match tool.impl with
    | none => ([⟨"text", "Tool " ++ name ++ " has no implementation"⟩], 0)
    | some f =>
      match f args with
      | (.ok r, n) => ([⟨"text", serialize r⟩], n)
      | (.error e, n) =>
          ([⟨"text", "Error executing " ++ name ++ ": " ++ e⟩], n)

/-- Embedding of the `POST /call` handler text of the HTTP server
(src/fastapi_server.py:148-177).  The module itself does not parse
(unmatched bracket at line 185), so at runtime no endpoint exists; this
embeds the handler of the last `create_app` binding (line 114, the one
`app = create_app()` at line 241 would call), which is the first route
registered on the path in that function's text.  It answers every case —
unknown tool, missing `_implementation`, implementation exception,
success — with an HTTP-200 list of structured text blocks and never
raises `HTTPException`; the 404-raising `/call` variant at lines 78-99
belongs to an earlier, shadowed `create_app` definition and is dead code.
Also reports the number of database accesses performed. -/
def fastapi_call_live (tools : List ToolReg) (serialize : Py → String)
    (name : String) (args : List (String × Py)) : List TextContent × Nat :=
  match toolLookup tools name with
  | none => ([⟨"text", "Unknown tool: " ++ name⟩], 0)
  | some tool =>
    match tool.impl with
    | none => ([⟨"text", "Tool " ++ name ++ " has no implementation"⟩], 0)
    | some f =>
      match f args with
      | (.ok r, n) => ([⟨"text", serialize r⟩], n)
      | (.error e, n) =>
          ([⟨"text", "Error executing " ++ name ++ ": " ++ e⟩], n)

/-- Recognizer for canonical `YYYY-MM-DD` strings: four digits, dash, two
digits, dash, two digits. -/
def isCanonicalYMD (s : String) : Bool :=
  match s.data with
  | [c1, c2, c3, c4, s1, c5, c6, s2, c7, c8] =>
      c1.isDigit && c2.isDigit && c3.isDigit && c4.isDigit && s1 == '-' &&
        c5.isDigit && c6.isDigit && s2 == '-' && c7.isDigit && c8.isDigit
  | _ => false

/-! ## Concrete fixtures used to instantiate the theorems -/

/-- A two-entry registry for exercising the dispatchers: one bound tool
making one database access, and one stub tool lacking an
`_implementation` attribute. -/
def demoTools : List ToolReg :=
  [⟨"sales_trend", some (fun _ => (.ok (.pdict []), 1))⟩,
   ⟨"stub_tool", none⟩]

/-- A rendering function standing in for `json.dumps` in the concrete
dispatch instances. -/
def demoSerialize : Py → String := pyStrOf

/-! ## Round-trip lemmas for the date parsers and printer -/

/-- Parsing a printed digit recovers the digit. -/
theorem digitVal_digitChar (k : Nat) (hk : k < 10) :
    digitVal (digitChar k) = some k := by
  interval_cases k <;> decide

/-- Parsing `%Y` on a padded four-digit year recovers the year. -/
theorem parseYear4_pad4 (y : Nat) (hy : y ≤ 9999) (rest : List Char) :
    parseYear4 (pad4 y ++ rest) = some (y, rest) := by
  have h1 : y / 1000 < 10 := by omega
  have h2 : y / 100 % 10 < 10 := by omega
  have h3 : y / 10 % 10 < 10 := by omega
  have h4 : y % 10 < 10 := by omega
  simp only [pad4, List.cons_append, List.nil_append, parseYear4,
    digitVal_digitChar _ h1, digitVal_digitChar _ h2,
    digitVal_digitChar _ h3, digitVal_digitChar _ h4]
  have hy4 : 1000 * (y / 1000) + 100 * (y / 100 % 10) + 10 * (y / 10 % 10)
      + y % 10 = y := by omega
  rw [hy4]

/-- Behavior of the `%m` regex on two printed digits. -/
theorem parseMonth2_two (d1 d2 : Nat) (h1 : d1 < 10) (h2 : d2 < 10)
    (rest : List Char) :
    parseMonth2 (digitChar d1 :: digitChar d2 :: rest) =
      (if d1 = 1 ∧ d2 ≤ 2 then some (10 + d2, rest)
       else if d1 = 0 ∧ 1 ≤ d2 then some (d2, rest)
       else if 1 ≤ d1 then some (d1, digitChar d2 :: rest)
       else none) := by
  simp only [parseMonth2, digitVal_digitChar _ h1, digitVal_digitChar _ h2]

/-- Parsing `%m` on a zero-padded month recovers the month. -/
theorem parseMonth2_pad2 (m : Nat) (hm1 : 1 ≤ m) (hm2 : m ≤ 12)
    (rest : List Char) : parseMonth2 (pad2 m ++ rest) = some (m, rest) := by
  by_cases h : m < 10
  · have hz : ('0' : Char) = digitChar 0 := by decide
    have hp : pad2 m ++ rest = digitChar 0 :: digitChar m :: rest := by
      unfold pad2; rw [if_pos h, hz]; rfl
    rw [hp, parseMonth2_two 0 m (by omega) h]
    rw [if_neg (by omega), if_pos ⟨rfl, hm1⟩]
  · have h10 : m / 10 = 1 := by omega
    have hp : pad2 m ++ rest = digitChar 1 :: digitChar (m % 10) :: rest := by
      unfold pad2; rw [if_neg h, h10]; rfl
    rw [hp, parseMonth2_two 1 (m % 10) (by omega) (by omega)]
    rw [if_pos ⟨rfl, by omega⟩]
    have hmm : 10 + m % 10 = m := by omega
    rw [hmm]

/-- Behavior of the `%d` regex on two printed digits. -/
theorem parseDay2_two (d1 d2 : Nat) (h1 : d1 < 10) (h2 : d2 < 10)
    (rest : List Char) :
    parseDay2 (digitChar d1 :: digitChar d2 :: rest) =
      (if d1 = 3 ∧ d2 ≤ 1 then some (30 + d2, rest)
       else if d1 = 1 ∨ d1 = 2 then some (10 * d1 + d2, rest)
       else if d1 = 0 ∧ 1 ≤ d2 then some (d2, rest)
       else if 1 ≤ d1 then some (d1, digitChar d2 :: rest)
       else none) := by
  simp only [parseDay2, digitVal_digitChar _ h1, digitVal_digitChar _ h2]

/-- Parsing `%d` on a zero-padded day recovers the day. -/
theorem parseDay2_pad2 (d : Nat) (hd1 : 1 ≤ d) (hd2 : d ≤ 31)
    (rest : List Char) : parseDay2 (pad2 d ++ rest) = some (d, rest) := by
  by_cases h : d < 10
  · have hz : ('0' : Char) = digitChar 0 := by decide
    have hp : pad2 d ++ rest = digitChar 0 :: digitChar d :: rest := by
      unfold pad2; rw [if_pos h, hz]; rfl
    rw [hp, parseDay2_two 0 d (by omega) h]
    rw [if_neg (by omega), if_neg (by omega), if_pos ⟨rfl, hd1⟩]
  · by_cases h30 : d < 30
    · have hq : d / 10 = 1 ∨ d / 10 = 2 := by omega
      have hp : pad2 d ++ rest = digitChar (d / 10) :: digitChar (d % 10) :: rest := by
        unfold pad2; rw [if_neg h]; rfl
      rw [hp, parseDay2_two (d / 10) (d % 10) (by omega) (by omega)]
      rw [if_neg (by omega), if_pos hq]
      have hdd : 10 * (d / 10) + d % 10 = d := by omega
      rw [hdd]
    · have hq : d / 10 = 3 := by omega
      have hp : pad2 d ++ rest = digitChar 3 :: digitChar (d % 10) :: rest := by
        unfold pad2; rw [if_neg h, hq]; rfl
      rw [hp, parseDay2_two 3 (d % 10) (by omega) (by omega)]
      rw [if_pos ⟨rfl, by omega⟩]
      have hdd : 30 + d % 10 = d := by omega
      rw [hdd]

/-- A literal separator consumes itself. -/
theorem expectChar_cons (c : Char) (rest : List Char) :
    expectChar c (c :: rest) = some rest := by
  simp [expectChar]

/-- Any date passing `mkValidDate` is valid. -/
theorem mkValidDate_valid {y m d : Nat} {dt : Date}
    (h : mkValidDate y m d = some dt) : dt.Valid := by
  unfold mkValidDate at h
  split at h
  · rename_i hv
    cases h
    exact hv
  · exact absurd h (by simp)

/-- A valid date passes `mkValidDate` unchanged. -/
theorem mkValidDate_of_valid (dt : Date) (h : dt.Valid) :
    mkValidDate dt.year dt.month dt.day = some dt := by
  unfold mkValidDate
  rw [if_pos h]

/-- Months never exceed 31 days. -/
theorem daysInMonth_le_31 (y m : Nat) : daysInMonth y m ≤ 31 := by
  unfold daysInMonth
  split_ifs <;> omega

/-- The first format, `%Y-%m-%d`, re-parses the canonical rendering of any
valid date to that date. -/
theorem parseYMDdash_dateChars (dt : Date) (h : dt.Valid) :
    parseYMDdash (dateChars dt) = some dt := by
  obtain ⟨h1, h2, h3, h4, h5, h6⟩ := h
  have hd31 : dt.day ≤ 31 := le_trans h6 (daysInMonth_le_31 _ _)
  have hdp : parseDay2 (pad2 dt.day) = some (dt.day, []) := by
    have h0 := parseDay2_pad2 dt.day h5 hd31 []
    rwa [List.append_nil] at h0
  unfold dateChars parseYMDdash
  rw [parseYear4_pad4 _ h2]
  simp only [Option.bind_eq_bind, Option.some_bind, expectChar_cons,
    parseMonth2_pad2 _ h3 h4, hdp, if_pos]
  exact mkValidDate_of_valid dt ⟨h1, h2, h3, h4, h5, h6⟩

/-- The whole format loop re-parses the canonical rendering of any valid
date to that date (the first format already succeeds). -/
theorem strptimeAny_dateChars (dt : Date) (h : dt.Valid) :
    strptimeAny (dateChars dt) = some dt := by
  unfold strptimeAny
  rw [parseYMDdash_dateChars dt h]

/-- Any date produced by the `%Y-%m-%d` attempt is valid. -/
theorem parseYMDdash_valid {cs : List Char} {dt : Date}
    (h : parseYMDdash cs = some dt) : dt.Valid := by
  unfold parseYMDdash at h
  simp only [Option.bind_eq_bind, Option.bind_eq_some] at h
  obtain ⟨⟨y, r1⟩, hy, r2, hr2, ⟨m, r3⟩, hm, r4, hr4, ⟨d, r5⟩, hd, hfin⟩ := h
  split at hfin
  · exact mkValidDate_valid hfin
  · exact absurd hfin (by simp)

/-- Any date produced by the `%m/%d/%Y` attempt is valid. -/
theorem parseMDYslash_valid {cs : List Char} {dt : Date}
    (h : parseMDYslash cs = some dt) : dt.Valid := by
  unfold parseMDYslash at h
  simp only [Option.bind_eq_bind, Option.bind_eq_some] at h
  obtain ⟨⟨m, r1⟩, hm, r2, hr2, ⟨d, r3⟩, hd, r4, hr4, ⟨y, r5⟩, hy, hfin⟩ := h
  split at hfin
  · exact mkValidDate_valid hfin
  · exact absurd hfin (by simp)

/-- Any date produced by the `%Y/%m/%d` attempt is valid. -/
theorem parseYMDslash_valid {cs : List Char} {dt : Date}
    (h : parseYMDslash cs = some dt) : dt.Valid := by
  unfold parseYMDslash at h
  simp only [Option.bind_eq_bind, Option.bind_eq_some] at h
  obtain ⟨⟨y, r1⟩, hy, r2, hr2, ⟨m, r3⟩, hm, r4, hr4, ⟨d, r5⟩, hd, hfin⟩ := h
  split at hfin
  · exact mkValidDate_valid hfin
  · exact absurd hfin (by simp)

/-- Any date produced by the `%d-%m-%Y` attempt is valid. -/
theorem parseDMYdash_valid {cs : List Char} {dt : Date}
    (h : parseDMYdash cs = some dt) : dt.Valid := by
  unfold parseDMYdash at h
  simp only [Option.bind_eq_bind, Option.bind_eq_some] at h
  obtain ⟨⟨d, r1⟩, hd, r2, hr2, ⟨m, r3⟩, hm, r4, hr4, ⟨y, r5⟩, hy, hfin⟩ := h
  split at hfin
  · exact mkValidDate_valid hfin
  · exact absurd hfin (by simp)

/-- Any date produced by the format loop is valid. -/
theorem strptimeAny_valid {cs : List Char} {dt : Date}
    (h : strptimeAny cs = some dt) : dt.Valid := by
  unfold strptimeAny at h
  split at h
  · rename_i hp; cases h; exact parseYMDdash_valid hp
  · split at h
    · rename_i hp; cases h; exact parseMDYslash_valid hp
    · split at h
      · rename_i hp; cases h; exact parseYMDslash_valid hp
      · exact parseDMYdash_valid h

/-- Digit characters satisfy `Char.isDigit`. -/
theorem digitChar_isDigit (k : Nat) (hk : k < 10) :
    (digitChar k).isDigit = true := by
  interval_cases k <;> decide

/-- A two-digit pad consists of two digit characters. -/
theorem pad2_shape (n : Nat) (h : n < 100) :
    ∃ a b, pad2 n = [digitChar a, digitChar b] ∧ a < 10 ∧ b < 10 := by
  by_cases h10 : n < 10
  · refine ⟨0, n, ?_, by omega, h10⟩
    unfold pad2
    rw [if_pos h10, show ('0' : Char) = digitChar 0 from by decide]
  · exact ⟨n / 10, n % 10, by unfold pad2; rw [if_neg h10], by omega, by omega⟩

/-- The canonical rendering of a valid date matches the `YYYY-MM-DD`
pattern. -/
theorem isCanonicalYMD_dateToStr (dt : Date) (h : dt.Valid) :
    isCanonicalYMD (dateToStr dt) = true := by
  obtain ⟨h1, h2, h3, h4, h5, h6⟩ := h
  have hd31 : dt.day ≤ 31 := le_trans h6 (daysInMonth_le_31 _ _)
  obtain ⟨a, b, hm, ha, hb⟩ := pad2_shape dt.month (by omega)
  obtain ⟨c, d, hd, hc, hdd⟩ := pad2_shape dt.day (by omega)
  have hy1 : dt.year / 1000 < 10 := by omega
  have hy2 : dt.year / 100 % 10 < 10 := by omega
  have hy3 : dt.year / 10 % 10 < 10 := by omega
  have hy4 : dt.year % 10 < 10 := by omega
  have hdata : (dateToStr dt).data = dateChars dt := rfl
  unfold isCanonicalYMD
  rw [hdata]
  unfold dateChars pad4
  rw [hm, hd]
  simp only [List.cons_append, List.nil_append]
  simp [digitChar_isDigit _ hy1, digitChar_isDigit _ hy2,
    digitChar_isDigit _ hy3, digitChar_isDigit _ hy4,
    digitChar_isDigit _ ha, digitChar_isDigit _ hb,
    digitChar_isDigit _ hc, digitChar_isDigit _ hdd]

/-! ## C10 — format_date normalization is canonical and idempotent -/

/-- C10: on every input on which `format_date` succeeds — a parseable
string or a `date`/`datetime` value — its output matches the `YYYY-MM-DD`
pattern, and applying `format_date` to its own output succeeds and returns
the same string. -/
theorem format_date_canonical_fixed_point (x : DateInput) (out : String)
    (h : format_date x = .ok out) :
    isCanonicalYMD out = true ∧ format_date (.str out) = .ok out := by
  have key : ∀ (dt : Date), dt.Valid → out = dateToStr dt →
      isCanonicalYMD out = true ∧ format_date (.str out) = .ok out := by
    intro dt hv hout
    subst hout
    refine ⟨isCanonicalYMD_dateToStr dt hv, ?_⟩
    have hre : strptimeAny (dateToStr dt).data = some dt := by
      rw [show (dateToStr dt).data = dateChars dt from rfl]
      exact strptimeAny_dateChars dt hv
    simp only [format_date, hre]
  cases x with
  | pydate dt hv =>
      simp only [format_date] at h
      cases h
      exact key dt hv rfl
  | str s =>
      simp only [format_date] at h
      cases hp : strptimeAny s.data with
      | none => rw [hp] at h; exact absurd h (by simp)
      | some dt =>
          rw [hp] at h
          cases h
          exact key dt (strptimeAny_valid hp) rfl

/-- Concrete instance of the C10 theorem, normalizing `3/5/2024`. -/
theorem format_date_canonical_fixed_point_witness :
    format_date (.str "3/5/2024") = .ok "2024-03-05" ∧
      isCanonicalYMD "2024-03-05" = true ∧
      format_date (.str "2024-03-05") = .ok "2024-03-05" := by
  have h : format_date (.str "3/5/2024") = .ok "2024-03-05" := by rfl
  have main := format_date_canonical_fixed_point (.str "3/5/2024")
    "2024-03-05" h
  exact ⟨h, main.1, main.2⟩

/-! ## C6 — validate_date_range -/

/-- C6: for any two date inputs that both normalize, `validate_date_range`
returns the canonical pair in order when the normalized start is at most
the normalized end (regardless of how large the span is — the over-365-day
branch only logs), and raises the `Start date must be before or equal to
end date` error when the normalized start is strictly greater. -/
theorem validate_date_range_ordered (s e outS outE : String) (dS dE : Date)
    (hs : format_date (.str s) = .ok outS)
    (he : format_date (.str e) = .ok outE)
    (hdS : strptimeAny outS.data = some dS)
    (hdE : strptimeAny outE.data = some dE) :
    (dateGtB dS dE = false → validate_date_range s e = .ok (outS, outE)) ∧
      (dateGtB dS dE = true →
        validate_date_range s e =
          .error "Start date must be before or equal to end date") := by
  constructor <;> intro hcmp <;>
    simp only [validate_date_range, hs, he, hdS, hdE, hcmp] <;> simp

/-- Concrete instances of the C6 theorem: an ordered pair whose span
exceeds 365 days (the warning condition holds, the call still succeeds),
and a reversed pair (the call fails). -/
theorem validate_date_range_ordered_witness :
    validate_date_range "01/02/2023" "2024-12-31" =
        .ok ("2023-01-02", "2024-12-31") ∧
      validate_range_warns "01/02/2023" "2024-12-31" = true ∧
      validate_date_range "2024-01-02" "2024-01-01" =
        .error "Start date must be before or equal to end date" := by
  have h1 := (validate_date_range_ordered "01/02/2023" "2024-12-31"
    "2023-01-02" "2024-12-31" ⟨2023, 1, 2⟩ ⟨2024, 12, 31⟩
    (by rfl) (by rfl) (by decide) (by decide)).1 (by decide)
  have h2 := (validate_date_range_ordered "2024-01-02" "2024-01-01"
    "2024-01-02" "2024-01-01" ⟨2024, 1, 2⟩ ⟨2024, 1, 1⟩
    (by rfl) (by rfl) (by decide) (by decide)).2 (by decide)
  exact ⟨h1, by decide, h2⟩

/-! ## C2 — where validation errors go -/

/-- C2 fails as stated: in `sales_gaps_impl` the `validate_date_range`
call precedes the `try` block, so an unparseable start date raises a
`ValueError` that propagates to the caller instead of being caught and
converted into an error envelope. -/
theorem sales_gaps_validation_cex :
    sales_gaps_impl "not-a-date" "2024-01-05" none (.ok []) "t" =
      .error
        "Invalid date range: Invalid date format: not-a-date. Expected YYYY-MM-DD" := by
  rfl

/-- C2 (amended): in `sales_gaps_impl` and `sales_trend_impl` a
date-validation failure is raised before the `try` block and propagates to
the caller unchanged — uniformly in the database outcome, so no query
result is ever consulted — while an exception raised during query
execution is caught and converted into an envelope with `error` set and
empty `data`. -/
theorem sales_tools_validation_boundary (start_date end_date : String) :
    (∀ msg, validate_date_range start_date end_date = .error msg →
      (∀ site db now,
          sales_gaps_impl start_date end_date site db now = .error msg) ∧
        (∀ interval site category metric db now,
          sales_trend_impl start_date end_date interval site category metric
            db now = .error msg)) ∧
      (∀ s e, validate_date_range start_date end_date = .ok (s, e) →
        ∀ site exc now, exc ≠ "" → ∃ env,
          sales_gaps_impl start_date end_date site (.error exc) now =
              .ok env ∧
            env.data = .plist [] ∧ env.error = some exc ∧
            env.success = false) := by
  constructor
  · intro msg h
    constructor
    · intro site db now
      simp only [sales_gaps_impl, h]
    · intro interval site category metric db now
      simp only [sales_trend_impl, h]
  · intro s e h site exc now hexc
    have htr : truthyErr (some exc) = true := by
      simp [truthyErr, hexc]
    simp only [sales_gaps_impl, h]
    refine ⟨_, rfl, rfl, ?_, ?_⟩
    · show (if truthyErr (some exc) then some exc else none) = some exc
      rw [htr]; rfl
    · show (!truthyErr (some exc)) = false
      rw [htr]; rfl

/-- Concrete instances of the C2 amended theorem: an invalid calendar date
propagates out of `sales_trend_impl`, and a query-time exception is
enveloped by `sales_gaps_impl`. -/
theorem sales_tools_validation_boundary_witness :
    validate_date_range "2024-02-30" "2024-03-01" =
        .error "Invalid date range: Invalid date format: 2024-02-30. Expected YYYY-MM-DD" ∧
      sales_trend_impl "2024-02-30" "2024-03-01" "daily" none none "sales"
          (.ok []) "t" =
        .error "Invalid date range: Invalid date format: 2024-02-30. Expected YYYY-MM-DD" ∧
      (∃ env,
        sales_gaps_impl "2024-01-01" "2024-01-02" none (.error "boom") "t" =
            .ok env ∧
          env.data = .plist [] ∧ env.error = some "boom" ∧
          env.success = false) := by
  have hv : validate_date_range "2024-02-30" "2024-03-01" =
      .error "Invalid date range: Invalid date format: 2024-02-30. Expected YYYY-MM-DD" := by
    rfl
  have hok : validate_date_range "2024-01-01" "2024-01-02" =
      .ok ("2024-01-01", "2024-01-02") := by rfl
  exact ⟨hv,
    ((sales_tools_validation_boundary "2024-02-30" "2024-03-01").1 _ hv).2
      "daily" none none "sales" (.ok []) "t",
    (sales_tools_validation_boundary "2024-01-01" "2024-01-02").2 _ _ hok
      none "boom" "t" (by decide)⟩

/-! ## C8 — the gap loop is an ordered set difference -/

/-- The gap loop computes the filter of the day range by non-membership in
the sold set (the spec's "pure set-difference" reading). -/
theorem gapLoop_eq_filter (sold : List Nat) (e : Nat) :
    ∀ (n s : Nat), e + 1 - s = n →
      gapLoop sold s e =
        (List.range' s n).filter (fun d => decide (d ∉ sold)) := by
  intro n
  induction n with
  | zero =>
      intro s hs
      have hse : ¬ s ≤ e := by omega
      rw [gapLoop]
      simp [hse]
  | succ k ih =>
      intro s hs
      have hse : s ≤ e := by omega
      rw [gapLoop, List.range'_succ, List.filter_cons]
      by_cases hmem : s ∈ sold
      · simp [hse, hmem, ih (s + 1) (by omega)]
      · simp [hse, hmem, ih (s + 1) (by omega)]

/-- The canonical rendering of a valid, ordered pair of dates passes
`validate_date_range` unchanged. -/
theorem validate_date_range_canonical (d1 d2 : Date) (h1 : d1.Valid)
    (h2 : d2.Valid) (hgt : dateGtB d1 d2 = false) :
    validate_date_range (dateToStr d1) (dateToStr d2) =
      .ok (dateToStr d1, dateToStr d2) := by
  have hre1 : strptimeAny (dateToStr d1).data = some d1 := by
    rw [show (dateToStr d1).data = dateChars d1 from rfl]
    exact strptimeAny_dateChars d1 h1
  have hre2 : strptimeAny (dateToStr d2).data = some d2 := by
    rw [show (dateToStr d2).data = dateChars d2 from rfl]
    exact strptimeAny_dateChars d2 h2
  have hfd1 : format_date (.str (dateToStr d1)) = .ok (dateToStr d1) := by
    simp only [format_date, hre1]
  have hfd2 : format_date (.str (dateToStr d2)) = .ok (dateToStr d2) := by
    simp only [format_date, hre2]
  simp only [validate_date_range, hfd1, hfd2, hre1, hre2, hgt]
  simp

/-- C8: for a validated range (valid dates with start not after end) and
any sold-day set returned by the query, `sales_gaps_impl` returns a
success envelope whose data lists exactly the calendar days of
`[start, end]` that are not among the sold days — the filtered day range —
in strictly ascending order; and a second call with identical arguments
returns the same result. -/
theorem sales_gaps_exact (d1 d2 : Date) (h1 : d1.Valid) (h2 : d2.Valid)
    (hgt : dateGtB d1 d2 = false) (site : Option Int) (sold : List Nat)
    (now : String) :
    ∃ env,
      sales_gaps_impl (dateToStr d1) (dateToStr d2) site (.ok sold) now =
          .ok env ∧
        env.error = none ∧ env.success = true ∧
        env.data = .plist ((gapLoop sold (toOrdinal d1) (toOrdinal d2)).map
          (fun n => .pstr (isoOfOrdinal n))) ∧
        gapLoop sold (toOrdinal d1) (toOrdinal d2) =
          (List.range' (toOrdinal d1) (toOrdinal d2 + 1 - toOrdinal d1)).filter
            (fun d => decide (d ∉ sold)) ∧
        (∀ d, d ∈ gapLoop sold (toOrdinal d1) (toOrdinal d2) ↔
          (toOrdinal d1 ≤ d ∧ d ≤ toOrdinal d2 ∧ d ∉ sold)) ∧
        List.Pairwise (· < ·) (gapLoop sold (toOrdinal d1) (toOrdinal d2)) ∧
        sales_gaps_impl (dateToStr d1) (dateToStr d2) site (.ok sold) now =
          sales_gaps_impl (dateToStr d1) (dateToStr d2) site (.ok sold) now := by
  have hre1 : strptimeAny (dateToStr d1).data = some d1 := by
    rw [show (dateToStr d1).data = dateChars d1 from rfl]
    exact strptimeAny_dateChars d1 h1
  have hre2 : strptimeAny (dateToStr d2).data = some d2 := by
    rw [show (dateToStr d2).data = dateChars d2 from rfl]
    exact strptimeAny_dateChars d2 h2
  have hval := validate_date_range_canonical d1 d2 h1 h2 hgt
  have hfil := gapLoop_eq_filter sold (toOrdinal d2)
    (toOrdinal d2 + 1 - toOrdinal d1) (toOrdinal d1) rfl
  have himpl : sales_gaps_impl (dateToStr d1) (dateToStr d2) site (.ok sold)
      now = .ok (create_tool_response
        (.plist ((gapLoop sold (toOrdinal d1) (toOrdinal d2)).map
          (fun n => .pstr (isoOfOrdinal n))))
        ("SELECT DISTINCT CONVERT(date, SaleDate) AS SaleDay FROM dbo.V_LLM_SalesFact WHERE SaleDate >= :start_date AND SaleDate < DATEADD(day, 1, :end_date)"
          ++ if siteFilterGaps site = true then " AND SiteID = :site_id" else "")
        (PyParams.named
          ([("start_date", Py.pstr (dateToStr d1)),
            ("end_date", Py.pstr (dateToStr d2))] ++
            if siteFilterGaps site = true then
              [("site_id", Py.pint (site.getD 0))] else []))
        (some (Py.pdict
          [("date_range", .pstr (dateToStr d1 ++ " → " ++ dateToStr d2)),
           ("site_id", pyOfOptInt site)]))
        none now) := by
    simp only [sales_gaps_impl, hval, hre1, hre2]
  refine ⟨_, himpl, rfl, rfl, rfl, hfil, ?_, ?_, rfl⟩
  · intro d
    rw [hfil]
    simp only [List.mem_filter, List.mem_range'_1, decide_eq_true_eq]
    constructor
    · rintro ⟨⟨hl, hr⟩, hn⟩
      exact ⟨hl, by omega, hn⟩
    · rintro ⟨hl, hr, hn⟩
      exact ⟨⟨hl, by omega⟩, hn⟩
  · rw [hfil]
    exact (List.pairwise_lt_range' _ _).filter _

/-- Concrete instance of the C8 theorem: the range 2024-01-01 .. 2024-01-03
with 2024-01-02 (ordinal 738887) sold yields the two surrounding days. -/
theorem sales_gaps_exact_witness :
    (Date.mk 2024 1 1).Valid ∧ (Date.mk 2024 1 3).Valid ∧
      dateGtB ⟨2024, 1, 1⟩ ⟨2024, 1, 3⟩ = false ∧
      (∃ env,
        sales_gaps_impl (dateToStr ⟨2024, 1, 1⟩) (dateToStr ⟨2024, 1, 3⟩)
            none (.ok [738887]) "t" = .ok env ∧
          env.data = .plist [.pstr "2024-01-01", .pstr "2024-01-03"]) := by
  have h1 : (Date.mk 2024 1 1).Valid := by decide
  have h3 : (Date.mk 2024 1 3).Valid := by decide
  have hgt : dateGtB ⟨2024, 1, 1⟩ ⟨2024, 1, 3⟩ = false := by decide
  obtain ⟨env, heq, herr, hsucc, hdata, hfil, hmem, hpair, hrep⟩ :=
    sales_gaps_exact ⟨2024, 1, 1⟩ ⟨2024, 1, 3⟩ h1 h3 hgt none [738887] "t"
  refine ⟨h1, h3, hgt, env, heq, ?_⟩
  rw [hdata, hfil]
  rfl

/-! ## C7 — year-over-year -/

/-- C7: only the `safe_divide` fragment of the year-over-year claim is
decided by code that exists (`safe_divide`, src/tools/utils.py): a change
expression of the form `safe_divide(current - previous, previous, 0.0)`
evaluates to the `0.0` default rather than raising whenever the
previous-period total is zero, for any current total.  The window-shift
fragment has no program deciding it: src/tools/analytics/year_over_year.py
fails to parse — its `timedelta(days=365)` statements (lines 35-39) are
lexically the contents of a string literal opened at line 34 — so no
revision of the tool is active. -/
theorem yoy_change_safe_divide_zero (current : ℚ) :
    safe_divide (current - 0) 0 0 = 0 := by
  simp [safe_divide]

/-! ## C1 — envelope success/error invariant -/

/-- C1 fails as stated: `format_response` receives its `success` flag
independently of `error`, so calling it with `success = true` and a
non-empty error produces an envelope with `success = true` and the `error`
key present at the same time, violating the claimed invariant. -/
theorem format_response_invariant_cex :
    ¬ envelopeInvariant
        (format_response true (.plist []) "q" none (some "boom") "t") := by
  decide

/-- C1 (amended): every envelope built by `create_tool_response` satisfies
the envelope invariant — the `error` key present with `success = false`,
or absent with `success = true` — for every combination of arguments,
including an empty-string error (which counts as no error); an envelope
built by `format_response` satisfies the invariant exactly when the caller
passes `success` equal to the negation of the error argument's
truthiness, and violates it otherwise. -/
theorem envelope_invariant_builders :
    (∀ data sql params metadata error now,
        envelopeInvariant
          (create_tool_response data sql params metadata error now)) ∧
    (∀ success data debug_sql metadata error now,
        envelopeInvariant
            (format_response success data debug_sql metadata error now) ↔
          success = !truthyErr error) := by
  constructor
  · intro data sql params metadata error now
    cases h : truthyErr error with
    | false =>
        right
        constructor
        · show (if truthyErr error then error else none) = none
          rw [h]; rfl
        · show (!truthyErr error) = true
          rw [h]; rfl
    | true =>
        left
        constructor
        · show (if truthyErr error then error else none) ≠ none
          rw [h]
          cases error with
          | none => simp [truthyErr] at h
          | some s => simp
        · show (!truthyErr error) = false
          rw [h]; rfl
  · intro success data debug_sql metadata error now
    cases h : truthyErr error with
    | false =>
        have he : (if truthyErr error then error else none) = none := by
          rw [h]; rfl
        unfold envelopeInvariant format_response
        simp only [he, h]
        simp
    | true =>
        cases error with
        | none => simp [truthyErr] at h
        | some s =>
            have he : (if truthyErr (some s) then some s else none) = some s := by
              rw [h]; rfl
            unfold envelopeInvariant format_response
            simp only [he, h]
            simp

/-! ## C5 — row_count -/

/-- C5: for both response builders, `row_count` equals the length of
`data` whenever `data` is a sequence (a list, in the sense of the envelope
data model `sequence-of-mappings | mapping`) and equals `1` for every
non-sequence `data` value. -/
theorem row_count_matches_data :
    ∀ data sql params metadata error now success debug_sql,
      (create_tool_response data sql params metadata error now).row_count =
          (if dataIsSequence data then seqLength data else 1) ∧
        (format_response success data debug_sql metadata error now).row_count =
          (if dataIsSequence data then seqLength data else 1) := by
  intro data sql params metadata error now success debug_sql
  cases data <;>
    simp [create_tool_response, format_response, dataIsSequence, seqLength]

/-! ## C9 — lift symmetry -/

/-- C9: the basket-analysis lift
`ROUND(pair_count × total_transactions / (item1_count × item2_count), 2)`
is invariant under swapping the roles of the two items of a pair, for all
positive item counts and transaction totals. -/
theorem basket_lift_swap_invariant
    (pair_count total_transactions item1_count item2_count : ℚ)
    (h1 : 0 < item1_count) (h2 : 0 < item2_count)
    (ht : 0 < total_transactions) :
    basket_lift pair_count total_transactions item1_count item2_count =
      basket_lift pair_count total_transactions item2_count item1_count := by
  unfold basket_lift
  rw [mul_comm item1_count item2_count]

/-- Concrete instance of the lift symmetry theorem. -/
theorem basket_lift_swap_invariant_witness :
    (0 : ℚ) < 2 ∧ (0 : ℚ) < 5 ∧ (0 : ℚ) < 20 ∧
      basket_lift 3 20 2 5 = basket_lift 3 20 5 2 :=
  ⟨by norm_num, by norm_num, by norm_num,
    basket_lift_swap_invariant 3 20 2 5 (by norm_num) (by norm_num)
      (by norm_num)⟩

/-! ## C3 — scoped session/connection helpers -/

/-- C3 fails as stated: on normal exit of the `get_db` scope the session
is created and closed but never committed — the helper issues no commit
(and no explicit rollback) on any exit path. -/
theorem get_db_no_commit_cex :
    (get_db_run (Except.ok (0 : Nat))).2 =
        [SessionEvent.create, SessionEvent.close] ∧
      SessionEvent.commit ∉ (get_db_run (Except.ok (0 : Nat))).2 := by
  constructor
  · rfl
  · decide

/-- C3 (amended): both scoped helpers release their resource on every exit
path and pass the body's exception through — `get_db` always closes the
session, and `get_connection` returns the connection to the pool or closes
it on success and closes it on exception — but neither helper commits on
normal exit nor issues an explicit rollback on exception (`close` on an
uncommitted autocommit-off connection implicitly discards the work). -/
theorem scoped_acquisition_release {α : Type} (body : Except String α)
    (pool : List Nat) (alive : Nat → Bool) (fresh : Nat) :
    (get_db_run body).1 = body ∧
    SessionEvent.close ∈ (get_db_run body).2 ∧
    SessionEvent.commit ∉ (get_db_run body).2 ∧
    SessionEvent.rollback ∉ (get_db_run body).2 ∧
    (get_connection_run pool alive fresh body).1 = body ∧
    (∀ c, ConnEvent.committed c ∉ (get_connection_run pool alive fresh body).2.2) ∧
    (∀ c, ConnEvent.rolledBack c ∉ (get_connection_run pool alive fresh body).2.2) ∧
    ((∃ c, ConnEvent.pooled c ∈ (get_connection_run pool alive fresh body).2.2 ∧
          c ∈ (get_connection_run pool alive fresh body).2.1) ∨
      (∃ c, ConnEvent.closed c ∈ (get_connection_run pool alive fresh body).2.2)) := by
  refine ⟨rfl, by simp [get_db_run], by simp [get_db_run],
    by simp [get_db_run], ?_, ?_, ?_, ?_⟩ <;>
    unfold get_connection_run <;>
    cases hgl : pool.getLast? <;>
    simp only [hgl] <;>
    first
      | (cases body with
          | ok a =>
              by_cases hlen : (List.length ([] : List Nat)) < 5 <;>
                simp [hlen]
          | error e => simp)
      | (rename_i c
         by_cases ha : alive c <;>
          cases body <;>
          by_cases hlen : pool.length - 1 < 5 <;>
          simp [ha, hlen])

/-! ## C4 — dispatch failures are structured -/

/-- C4 fails as stated in its HTTP half: the `POST /call` handler that the
module's last `create_app` binding registers first on the path
(src/fastapi_server.py:148-177) answers an unknown tool name with an
HTTP-200 list of structured text blocks — not a not-found-class client
error — as this concrete call shows; zero database accesses occur.  (The
404-raising handler at lines 78-99 sits in an earlier `create_app`
definition that the later bindings shadow, and the module does not parse
at all, so at runtime no `/call` endpoint exists.) -/
theorem fastapi_unknown_tool_cex :
    fastapi_call_live demoTools demoSerialize "nope" [] =
      ([⟨"text", "Unknown tool: nope"⟩], 0) := by
  rfl

/-- C4 (amended): dispatching an unknown tool name returns a structured
"unknown tool" text failure rather than raising, and a registered tool
without a bound `_implementation` likewise returns a structured failure —
both through the stdio dispatcher (src/server.py:69) and through the text
of the live HTTP `/call` handler (src/fastapi_server.py:148, an HTTP-200
structured body, not a 404) — and for an unknown name zero database
accesses occur.  The 404-raising handler of the original claim exists only
in a dead, shadowed `create_app` revision of a module that does not parse. -/
theorem dispatch_failures_structured (tools : List ToolReg)
    (serialize : Py → String) (name : String) (args : List (String × Py)) :
    (toolLookup tools name = none →
      server_call_tool tools serialize name args =
          ([⟨"text", "Unknown tool: " ++ name⟩], 0) ∧
        fastapi_call_live tools serialize name args =
          ([⟨"text", "Unknown tool: " ++ name⟩], 0)) ∧
    (∀ t, toolLookup tools name = some t → t.impl = none →
      server_call_tool tools serialize name args =
          ([⟨"text", "Tool " ++ name ++ " has no implementation"⟩], 0) ∧
        fastapi_call_live tools serialize name args =
          ([⟨"text", "Tool " ++ name ++ " has no implementation"⟩], 0)) := by
  constructor
  · intro h
    constructor <;> simp [server_call_tool, fastapi_call_live, h]
  · intro t ht hi
    constructor <;> simp [server_call_tool, fastapi_call_live, ht, hi]

/-- Concrete instance of the structured-dispatch-failure theorem, on a
registry with one bound tool and one stub lacking an implementation. -/
theorem dispatch_failures_structured_witness :
    toolLookup demoTools "missing" = none ∧
      server_call_tool demoTools demoSerialize "missing" [] =
        ([⟨"text", "Unknown tool: missing"⟩], 0) ∧
      fastapi_call_live demoTools demoSerialize "missing" [] =
        ([⟨"text", "Unknown tool: missing"⟩], 0) ∧
      server_call_tool demoTools demoSerialize "stub_tool" [] =
        ([⟨"text", "Tool stub_tool has no implementation"⟩], 0) := by
  have h1 : toolLookup demoTools "missing" = none := rfl
  have ht : toolLookup demoTools "stub_tool" = some ⟨"stub_tool", none⟩ := rfl
  have main1 := (dispatch_failures_structured demoTools demoSerialize
    "missing" []).1 h1
  have main2 := (dispatch_failures_structured demoTools demoSerialize
    "stub_tool" []).2 ⟨"stub_tool", none⟩ ht rfl
  exact ⟨h1, main1.1, main1.2, main2.1⟩

end PDI
